import Mathlib

/-!
# Verification of minikube's startup / configuration-resolution layer

Shallow embedding of `cmd/minikube/cmd/root.go`: the viper/pflag layered
configuration resolver (`setFlagsUsingViper`), the environment-variable
name mangling installed by `setupViper`, config-file ingestion
(`initConfig`), the `init` adjustment of the `log_dir` flag, and the
`RootCmd.PersistentPreRun` bootstrap hook (directory provisioning, log
rerouting, notification checks).

Modelling conventions:
* Configuration values are modelled as their string renderings (viper's
  `GetString` casts stored values to strings; the booleans and the one
  integer default appearing here render as "true"/"false"/"24").
* A pflag `Flag` carries its registered name, the immutable registration
  default `DefValue`, the current `Value`, and the `Changed` marker.
  `Value.Set` (used by the code) mutates the value WITHOUT touching
  `Changed`; only explicit command-line parsing, or the resolver's final
  `a.Changed = true` assignment, sets the marker.
* The viper instance is modelled by its four value layers in lookup
  order after `setupViper` has run: explicit `Set` overrides, the
  automatic environment (keyed by mangled variable name, consulted
  because `AutomaticEnv` is on), the config-file layer, and defaults.
  This is viper's documented precedence for these keys (none of the
  whitelisted keys is a bound pflag, so the flag layer never fires).
* The filesystem is a set of existing directories plus a set of paths
  occupied by non-directory files; `os.MkdirAll` creates every missing
  ancestor and fails when some path component exists as a file.
-/

namespace Minikube

/-- A registered pflag: name, registration-time default (`DefValue`),
current value, and the `Changed` marker. -/
structure Flag where
  name : String
  defValue : String
  value : String
  changed : Bool
deriving DecidableEq

/-- `pflag.Lookup`: find the registered flag with the given name. -/
def lookupFlag : List Flag → String → Option Flag
  | [], _ => none
  | f :: rest, n => if f.name = n then some f else lookupFlag rest n

/-- Apply `g` to the flag registered under name `n` (pflag flags are
mutated in place through the pointer returned by `Lookup`). -/
def mapFlag (fs : List Flag) (n : String) (g : Flag → Flag) : List Flag :=
  fs.map fun f => if f.name = n then g f else f

/-- `a.Value.Set(v)` followed by `a.Changed = true`, as done by the body
of `setFlagsUsingViper`. -/
def setFlagValue (fs : List Flag) (n v : String) : List Flag :=
  mapFlag fs n fun f => { f with value := v, changed := true }

/-- Bare `a.Value.Set(v)` (does NOT set the `Changed` marker), as done
by `init` for `log_dir`. -/
def setValueOnly (fs : List Flag) (n v : String) : List Flag :=
  mapFlag fs n fun f => { f with value := v }

/-- Association lookup in a viper value layer (first entry wins; setters
prepend, so a later `Set`/`SetDefault` shadows an earlier one). -/
def lookupKV : List (String × String) → String → Option String
  | [], _ => none
  | (k, v) :: rest, n => if k = n then some v else lookupKV rest n

/-- The viper instance after `setupViper` installed the env prefix, the
`-`→`_` key replacer and `AutomaticEnv`: four value layers in
precedence order. `envLayer` is the ambient process environment, keyed
by environment-variable name. -/
structure ViperState where
  override : List (String × String)
  envLayer : List (String × String)
  configLayer : List (String × String)
  defaults : List (String × String)
deriving DecidableEq

/-- `viper.Set`. -/
def viperSet (vp : ViperState) (k v : String) : ViperState :=
  { vp with override := (k, v) :: vp.override }

/-- `viper.SetDefault`. -/
def viperSetDefault (vp : ViperState) (k v : String) : ViperState :=
  { vp with defaults := (k, v) :: vp.defaults }

/-- Modelled from the spec: `constants.MinikubeEnvPrefix` (package
`pkg/minikube/constants`, not in src/) — the fixed tool-specific
environment prefix. -/
def minikubeEnvName : String := "MINIKUBE"

/-- Go `strings.ToUpper` restricted to the ASCII keys used here. -/
def toUpperGo (s : String) : String := ⟨s.data.map Char.toUpper⟩

/-- The `strings.NewReplacer("-", "_")` installed by
`viper.SetEnvKeyReplacer`: replace every `-` with `_`. -/
def dashToUnderscore (s : String) : String :=
  ⟨s.data.map fun c => if c = '-' then '_' else c⟩

/-- The environment-variable name viper consults for a key once
`setupViper` has run: uppercase `<PREFIX>_<key>`, then apply the key
replacer (viper's `mergeWithEnvPrefix` followed by the replacer in
`getEnv`). -/
def envVarNameFor (key : String) : String :=
  dashToUnderscore (toUpperGo (minikubeEnvName ++ "_" ++ key))

/-- `viper.GetString` after `setupViper`: explicit `Set` override, then
the automatic environment, then the config file, then defaults; empty
string when the key is nowhere. -/
def getString (vp : ViperState) (key : String) : String :=
  match lookupKV vp.override key with
  | some s => s
  | none =>
    match lookupKV vp.envLayer (envVarNameFor key) with
    | some s => s
    | none =>
      match lookupKV vp.configLayer key with
      | some s => s
      | none => (lookupKV vp.defaults key).getD ""

/-- `viper.GetBool` on our string-rendered values. -/
def getBool (vp : ViperState) (key : String) : Bool :=
  getString vp key = "true"

/-- The `viperWhiteList` variable of root.go. -/
def viperWhiteList : List String := ["v", "alsologtostderr", "log_dir"]

/-- The viper mutations performed for one whitelisted flag by the body
of `setFlagsUsingViper`: seed the default from the flag's `DefValue`,
then, if the flag was explicitly set, push its value as an override. -/
def resolveStepViper (vp : ViperState) (a : Flag) : ViperState :=
  let vp1 := viperSetDefault vp a.name a.defValue
  if a.changed then viperSet vp1 a.name a.value else vp1

/-- The loop of `setFlagsUsingViper`, iterated over the whitelist: per
name, mutate viper (`resolveStepViper`), then write `GetString`'s
resolved value back into the flag and mark it changed. `pflag.Lookup`
returning nil makes the very next field access (`a.Name`) panic; that
crash is modelled by `none`. -/
def setFlagsUsingViperLoop :
    List String → List Flag → ViperState → Option (List Flag × ViperState)
  | [], flags, vp => some (flags, vp)
  | n :: rest, flags, vp =>
    match lookupFlag flags n with
    | none => none
    | some a =>
      setFlagsUsingViperLoop rest
        (setFlagValue flags a.name (getString (resolveStepViper vp a) a.name))
        (resolveStepViper vp a)

/-- The value `GetString` resolves for an unchanged whitelisted flag
with no override and no environment hit: the config-file value when
present, else the seeded flag default. -/
def resolveFallback (cfg : List (String × String)) (n d : String) : String :=
  match lookupKV cfg n with
  | some cv => cv
  | none => d

/-- `setFlagsUsingViper` of root.go. -/
def setFlagsUsingViper (flags : List Flag) (vp : ViperState) :
    Option (List Flag × ViperState) :=
  setFlagsUsingViperLoop viperWhiteList flags vp

/-- The goflag set contributed by the glog library (added to
`pflag.CommandLine` by `init` via `AddGoFlagSet`); only the whitelisted
flags are modelled: `v` (default "0"), `alsologtostderr` (default
"false"), `log_dir` (default ""). -/
def glogFlags : List Flag :=
  [⟨"v", "0", "0", false⟩,
   ⟨"alsologtostderr", "false", "false", false⟩,
   ⟨"log_dir", "", "", false⟩]

/-- Modelled from the spec: the configuration-key constants of
`pkg/minikube/config` (not in src/) named by the spec: "want update
notification", "reminder wait period in hours", "want report error",
"want report error prompt", "want kubectl download message". -/
def WantUpdateNotification : String := "WantUpdateNotification"

/-- Modelled from the spec: see `WantUpdateNotification`. -/
def ReminderWaitPeriodInHours : String := "ReminderWaitPeriodInHours"

/-- Modelled from the spec: see `WantUpdateNotification`. -/
def WantReportError : String := "WantReportError"

/-- Modelled from the spec: see `WantUpdateNotification`. -/
def WantReportErrorPrompt : String := "WantReportErrorPrompt"

/-- Modelled from the spec: see `WantUpdateNotification`. -/
def WantKubectlDownloadMsg : String := "WantKubectlDownloadMsg"

/-- `setupViper` of root.go: the env prefix, key replacer and
`AutomaticEnv` installed there are baked into `getString`; then the
five compiled-in defaults are seeded and the whitelist is resolved. -/
def setupViper (flags : List Flag) (vp : ViperState) :
    Option (List Flag × ViperState) :=
  let vp1 := viperSetDefault vp WantUpdateNotification "true"
  let vp2 := viperSetDefault vp1 ReminderWaitPeriodInHours "24"
  let vp3 := viperSetDefault vp2 WantReportError "false"
  let vp4 := viperSetDefault vp3 WantReportErrorPrompt "true"
  let vp5 := viperSetDefault vp4 WantKubectlDownloadMsg "true"
  setFlagsUsingViper flags vp5

/-- `initConfig` of root.go. `readResult` is the outcome of
`viper.ReadInConfig` on the fixed config path: `.ok entries` loads the
parsed JSON into the config-file layer; `.error` only logs a warning
(the returned `Bool`) and leaves the layer as it was. The `Option` is
`none` exactly when `setFlagsUsingViper` panics. -/
def initConfig (readResult : Except String (List (String × String)))
    (flags : List Flag) (vp : ViperState) :
    Bool × Option (List Flag × ViperState) :=
  match readResult with
  | .ok entries => (false, setupViper flags { vp with configLayer := entries })
  | .error _ => (true, setupViper flags vp)

/-- A filesystem path, as its list of components. -/
abbrev Path := List String

/-- Modelled from the spec: `constants.Minipath` (not in src/), the
tool's root directory; the concrete location is immaterial. -/
def minipath : Path := [".minikube"]

/-- `constants.MakeMiniPath`: a path under the minikube root. -/
def MakeMiniPath (sub : List String) : Path := minipath ++ sub

/-- The `dirs` array of root.go, in order. -/
def dirsList : List Path :=
  [minipath,
   MakeMiniPath ["certs"],
   MakeMiniPath ["machines"],
   MakeMiniPath ["cache"],
   MakeMiniPath ["cache", "iso"],
   MakeMiniPath ["cache", "localkube"],
   MakeMiniPath ["config"],
   MakeMiniPath ["addons"],
   MakeMiniPath ["logs"]]

/-- The string form of `constants.MakeMiniPath("logs")` that `init`
writes into the `log_dir` flag value. -/
def minikubeLogsPathStr : String := ".minikube/logs"

/-- The `log_dir` adjustment in root.go's `init`: after the glog goflag
set has been merged into `pflag.CommandLine`, look up `log_dir` and, if
it was not changed, set its VALUE (not its `Changed` marker) to the
minikube logs path. A nil `Lookup` result would panic at the `.Changed`
access (modelled by `none`). -/
def rootInit (flags : List Flag) : Option (List Flag) :=
  (lookupFlag flags "log_dir").map fun logDir =>
    if logDir.changed then flags
    else setValueOnly flags "log_dir" minikubeLogsPathStr

/-- The viper instance at process start: no overrides, no config-file
layer, no defaults; only the ambient process environment. -/
def viperStart (env : List (String × String)) : ViperState :=
  ⟨[], env, [], []⟩

/-- Filesystem state: existing directories, and paths occupied by
non-directory files (the `MkdirAll` failure mode modelled here). -/
structure FS where
  dirs : List Path
  files : List Path
deriving DecidableEq

/-- The non-empty reversed-ancestors of a path: every component-wise
ancestor of `p`, including `p` itself. -/
def pathAncestors (p : Path) : List Path :=
  (List.range p.length).map fun i => p.take (i + 1)

/-- `os.MkdirAll(p, 0777)`: create `p` and every missing ancestor; a
no-op for components that already exist as directories; fails when any
component of the path exists as a non-directory file. -/
def mkdirAll (fs : FS) (p : Path) : Except String FS :=
  if (pathAncestors p).any (fun q => decide (q ∈ fs.files)) then
    .error "mkdir: not a directory"
  else
    .ok { fs with
          dirs := fs.dirs ++ (pathAncestors p).filter fun q => decide (q ∉ fs.dirs) }

/-- The directory-creation loop at the top of `PersistentPreRun`: on
the first `MkdirAll` error the process exits (`glog.Exitf`), modelled
by propagating `.error`. -/
def createDirs : List Path → FS → Except String FS
  | [], fs => .ok fs
  | p :: rest, fs =>
    match mkdirAll fs p with
    | .error e => .error e
    | .ok fs1 => createDirs rest fs1

/-- The `enableUpdateNotification` package variable (compiled to true,
never reassigned). -/
def enableUpdateNotification : Bool := true

/-- The `enableKubectlDownloadMsg` package variable (compiled to true,
never reassigned). -/
def enableKubectlDownloadMsg : Bool := true

/-- Modelled from the spec: `notify.MaybePrintUpdateTextFromGithub`
(package `pkg/minikube/notify`, not in src/) performs its
update-notification check only when enabled by configuration — the
resolved "want update notification" value. -/
def updateCheckEnabled (vp : ViperState) : Bool :=
  getBool vp WantUpdateNotification

/-- Modelled from the spec: `util.MaybePrintKubectlDownloadMsg`
(package `cmd/util`, not in src/) performs its download-message check
only when enabled by configuration — the resolved "want kubectl
download message" value. -/
def kubectlMsgEnabled (vp : ViperState) : Bool :=
  getBool vp WantKubectlDownloadMsg

/-- The observable effects of one run of `RootCmd.PersistentPreRun`. -/
structure PreRunResult where
  exited : Bool
  exitMsg : Option String
  deprecationPrinted : Bool
  libmachineOutDiscarded : Bool
  libmachineDebug : Bool
  updateCheckInvoked : Bool
  updateCheckPerformed : Bool
  kubectlMsgInvoked : Bool
  kubectlMsgPerformed : Bool
  fs : FS
deriving DecidableEq

/-- `RootCmd.PersistentPreRun`: create the directory list (fatal on
error — nothing later runs), print the deprecation notice when the
resolved `show-libmachine-logs` value is true, discard libmachine
output below verbosity 3 (`!glog.V(3)`), enable libmachine debug at
verbosity 7 or above (`glog.V(7)`), then invoke the notification
checks gated by the two package booleans; whether each invoked check
actually performs is additionally gated by its configuration value
(see `updateCheckEnabled` / `kubectlMsgEnabled`). -/
def persistentPreRun (fs : FS) (showLibmachineLogsVal : Bool)
    (verbosity : Nat) (vp : ViperState) : PreRunResult :=
  match createDirs dirsList fs with
  | .error e =>
    { exited := true
      exitMsg := some ("Error creating minikube directory: " ++ e)
      deprecationPrinted := false
      libmachineOutDiscarded := false
      libmachineDebug := false
      updateCheckInvoked := false
      updateCheckPerformed := false
      kubectlMsgInvoked := false
      kubectlMsgPerformed := false
      fs := fs }
  | .ok fs1 =>
    { exited := false
      exitMsg := none
      deprecationPrinted := showLibmachineLogsVal
      libmachineOutDiscarded := !(decide (3 ≤ verbosity))
      libmachineDebug := decide (7 ≤ verbosity)
      updateCheckInvoked := enableUpdateNotification
      updateCheckPerformed := enableUpdateNotification && updateCheckEnabled vp
      kubectlMsgInvoked := enableKubectlDownloadMsg
      kubectlMsgPerformed := enableKubectlDownloadMsg && kubectlMsgEnabled vp
      fs := fs1 }

/-! ## Helper lemmas about flag lookup and the resolver loop -/

theorem lookupFlag_name {fs : List Flag} {n : String} {a : Flag}
    (h : lookupFlag fs n = some a) : a.name = n := by
  induction fs with
  | nil => simp [lookupFlag] at h
  | cons f rest ih =>
    by_cases hf : f.name = n
    · simp [lookupFlag, hf] at h
      subst h; exact hf
    · simp [lookupFlag, hf] at h
      exact ih h

theorem lookupFlag_mapFlag_self {fs : List Flag} {n : String} {g : Flag → Flag}
    (hg : ∀ f, (g f).name = f.name) :
    lookupFlag (mapFlag fs n g) n = (lookupFlag fs n).map g := by
  induction fs with
  | nil => simp [lookupFlag, mapFlag]
  | cons f rest ih =>
    by_cases hf : f.name = n
    · simp [lookupFlag, mapFlag, hf, hg f]
    · simp only [mapFlag, List.map_cons, if_neg hf]
      simp only [lookupFlag, if_neg hf]
      exact ih

theorem lookupFlag_mapFlag_ne {fs : List Flag} {n m : String} {g : Flag → Flag}
    (hg : ∀ f, (g f).name = f.name) (hne : m ≠ n) :
    lookupFlag (mapFlag fs n g) m = lookupFlag fs m := by
  induction fs with
  | nil => simp [lookupFlag, mapFlag]
  | cons f rest ih =>
    by_cases hf : f.name = n
    · have h1 : ¬((g f).name = m) := by rw [hg f, hf]; exact fun h => hne h.symm
      have h2 : ¬(f.name = m) := by rw [hf]; exact fun h => hne h.symm
      simp only [mapFlag, List.map_cons, if_pos hf, lookupFlag, if_neg h1, if_neg h2]
      exact ih
    · simp only [mapFlag, List.map_cons, if_neg hf]
      simp only [lookupFlag]
      by_cases hm : f.name = m
      · simp [hm]
      · simp only [if_neg hm]
        exact ih

theorem lookupFlag_mapFlag_isSome {fs : List Flag} {n m : String} {g : Flag → Flag}
    (hg : ∀ f, (g f).name = f.name) :
    (lookupFlag (mapFlag fs n g) m).isSome = (lookupFlag fs m).isSome := by
  by_cases h : m = n
  · subst h
    rw [lookupFlag_mapFlag_self hg]
    cases lookupFlag fs m <;> rfl
  · rw [lookupFlag_mapFlag_ne hg h]

theorem lookupFlag_setFlagValue_self {fs : List Flag} {n : String} {a : Flag}
    (v : String) (h : lookupFlag fs n = some a) :
    lookupFlag (setFlagValue fs n v) n = some { a with value := v, changed := true } := by
  unfold setFlagValue
  rw [@lookupFlag_mapFlag_self fs n (fun f => { f with value := v, changed := true })
      (fun _ => rfl), h]
  rfl

theorem lookupFlag_setFlagValue_ne {fs : List Flag} {n m v : String} (hne : m ≠ n) :
    lookupFlag (setFlagValue fs n v) m = lookupFlag fs m :=
  lookupFlag_mapFlag_ne (fun _ => rfl) hne

theorem lookupFlag_setFlagValue_isSome {fs : List Flag} {n m v : String} :
    (lookupFlag (setFlagValue fs n v) m).isSome = (lookupFlag fs m).isSome :=
  lookupFlag_mapFlag_isSome (fun _ => rfl)

theorem lookupFlag_setFlagValue_none {fs : List Flag} {n m v : String}
    (h : lookupFlag fs m = none) : lookupFlag (setFlagValue fs n v) m = none := by
  have hs := @lookupFlag_setFlagValue_isSome fs n m v
  rw [h] at hs
  cases ho : lookupFlag (setFlagValue fs n v) m with
  | none => rfl
  | some x => rw [ho] at hs; simp at hs

theorem lookupFlag_setValueOnly_self {fs : List Flag} {n : String} {a : Flag}
    (v : String) (h : lookupFlag fs n = some a) :
    lookupFlag (setValueOnly fs n v) n = some { a with value := v } := by
  unfold setValueOnly
  rw [@lookupFlag_mapFlag_self fs n (fun f => { f with value := v })
      (fun _ => rfl), h]
  rfl

theorem resolveStepViper_configLayer (vp : ViperState) (a : Flag) :
    (resolveStepViper vp a).configLayer = vp.configLayer := by
  unfold resolveStepViper; cases a.changed <;> rfl

theorem resolveStepViper_envLayer (vp : ViperState) (a : Flag) :
    (resolveStepViper vp a).envLayer = vp.envLayer := by
  unfold resolveStepViper; cases a.changed <;> rfl

theorem resolveStepViper_defaults (vp : ViperState) (a : Flag) :
    (resolveStepViper vp a).defaults = (a.name, a.defValue) :: vp.defaults := by
  unfold resolveStepViper; cases a.changed <;> rfl

theorem resolveStepViper_override_ne {vp : ViperState} {a : Flag} {n : String}
    (hne : a.name ≠ n) :
    lookupKV (resolveStepViper vp a).override n = lookupKV vp.override n := by
  unfold resolveStepViper
  cases a.changed
  · rfl
  · simp only [if_pos rfl, viperSet, viperSetDefault, lookupKV, if_neg hne]

theorem getString_resolveStep_changed {vp : ViperState} {a : Flag}
    (h : a.changed = true) :
    getString (resolveStepViper vp a) a.name = a.value := by
  unfold resolveStepViper
  rw [h]
  simp [getString, viperSet, viperSetDefault, lookupKV]

theorem getString_resolveStep_unchanged {vp : ViperState} {a : Flag}
    (h : a.changed = false)
    (hov : lookupKV vp.override a.name = none)
    (henv : lookupKV vp.envLayer (envVarNameFor a.name) = none) :
    getString (resolveStepViper vp a) a.name
      = resolveFallback vp.configLayer a.name a.defValue := by
  unfold resolveStepViper
  rw [h]
  simp only [Bool.false_eq_true, if_false, getString, viperSetDefault, hov, henv,
    lookupKV, if_pos rfl, resolveFallback]
  cases lookupKV vp.configLayer a.name <;> rfl

theorem setFlagsUsingViperLoop_missing {names : List String} {flags : List Flag}
    {vp : ViperState} {n : String} (hn : n ∈ names)
    (hmiss : lookupFlag flags n = none) :
    setFlagsUsingViperLoop names flags vp = none := by
  induction names generalizing flags vp with
  | nil => simp at hn
  | cons m rest ih =>
    rcases List.mem_cons.mp hn with h | h
    · subst h
      simp [setFlagsUsingViperLoop, hmiss]
    · cases hm : lookupFlag flags m with
      | none => simp [setFlagsUsingViperLoop, hm]
      | some b =>
        simp only [setFlagsUsingViperLoop, hm]
        exact ih h (lookupFlag_setFlagValue_none hmiss)

theorem setFlagsUsingViperLoop_not_mem {names : List String} {flags : List Flag}
    {vp : ViperState} {fl' : List Flag} {vp' : ViperState} {n : String}
    (hn : n ∉ names)
    (h : setFlagsUsingViperLoop names flags vp = some (fl', vp')) :
    lookupFlag fl' n = lookupFlag flags n := by
  induction names generalizing flags vp with
  | nil =>
    simp only [setFlagsUsingViperLoop, Option.some.injEq, Prod.mk.injEq] at h
    rw [← h.1]
  | cons m rest ih =>
    have hm_ne : n ≠ m := fun e => hn (e ▸ List.mem_cons_self m rest)
    cases hl : lookupFlag flags m with
    | none => simp [setFlagsUsingViperLoop, hl] at h
    | some b =>
      simp only [setFlagsUsingViperLoop, hl] at h
      have hrest : n ∉ rest := fun hr => hn (List.mem_cons_of_mem _ hr)
      rw [ih hrest h]
      exact lookupFlag_setFlagValue_ne
        (fun e => hm_ne (e.trans (lookupFlag_name hl)))

theorem setFlagsUsingViperLoop_total {names : List String} {flags : List Flag}
    (vp : ViperState)
    (h : ∀ n ∈ names, (lookupFlag flags n).isSome = true) :
    ∃ fl' vp', setFlagsUsingViperLoop names flags vp = some (fl', vp') ∧
      vp'.configLayer = vp.configLayer ∧ vp'.envLayer = vp.envLayer := by
  induction names generalizing flags vp with
  | nil => exact ⟨flags, vp, rfl, rfl, rfl⟩
  | cons m rest ih =>
    have hm := h m (List.mem_cons_self m rest)
    cases hl : lookupFlag flags m with
    | none => rw [hl] at hm; simp at hm
    | some b =>
      have hstep : ∀ n ∈ rest,
          (lookupFlag (setFlagValue flags b.name
            (getString (resolveStepViper vp b) b.name)) n).isSome = true := by
        intro n hn
        rw [lookupFlag_setFlagValue_isSome]
        exact h n (List.mem_cons_of_mem _ hn)
      obtain ⟨fl', vp', heq, hc, he⟩ := ih (resolveStepViper vp b) hstep
      refine ⟨fl', vp', ?_, ?_, ?_⟩
      · simp only [setFlagsUsingViperLoop, hl]
        exact heq
      · rw [hc, resolveStepViper_configLayer]
      · rw [he, resolveStepViper_envLayer]

/-- Processing the whitelist resolves an explicitly changed flag to its
own supplied value, no matter what the viper layers hold. -/
theorem setFlagsUsingViperLoop_changed {names : List String} {flags : List Flag}
    {vp : ViperState} {fl' : List Flag} {vp' : ViperState} {n : String} {a : Flag}
    (hnd : names.Nodup) (hn : n ∈ names)
    (ha : lookupFlag flags n = some a) (hch : a.changed = true)
    (h : setFlagsUsingViperLoop names flags vp = some (fl', vp')) :
    lookupFlag fl' n = some { a with value := a.value, changed := true } := by
  induction names generalizing flags vp with
  | nil => simp at hn
  | cons m rest ih =>
    obtain ⟨hm_nin, hrest_nd⟩ := List.nodup_cons.mp hnd
    rcases List.mem_cons.mp hn with he | he
    · subst he
      simp only [setFlagsUsingViperLoop, ha] at h
      rw [setFlagsUsingViperLoop_not_mem hm_nin h]
      have hname := lookupFlag_name ha
      have hx := lookupFlag_setFlagValue_self
        (getString (resolveStepViper vp a) a.name) ha
      rw [getString_resolveStep_changed hch] at hx ⊢
      rw [hname] at hx ⊢
      exact hx
    · have hm_ne : n ≠ m := fun e => hm_nin (e ▸ he)
      cases hl : lookupFlag flags m with
      | none => simp [setFlagsUsingViperLoop, hl] at h
      | some b =>
        simp only [setFlagsUsingViperLoop, hl] at h
        have hb := lookupFlag_name hl
        have ha2 : lookupFlag (setFlagValue flags b.name
            (getString (resolveStepViper vp b) b.name)) n = some a := by
          rw [lookupFlag_setFlagValue_ne (fun e => hm_ne (e.trans hb))]
          exact ha
        exact ih hrest_nd he ha2 h

/-- Processing the whitelist resolves an unchanged flag (with no
pre-existing override and no environment hit) to the config-file value
when one exists, else to the flag's own registration default. -/
theorem setFlagsUsingViperLoop_unchanged {names : List String} {flags : List Flag}
    {vp : ViperState} {fl' : List Flag} {vp' : ViperState} {n : String} {a : Flag}
    (hnd : names.Nodup) (hn : n ∈ names)
    (ha : lookupFlag flags n = some a) (hch : a.changed = false)
    (hov : lookupKV vp.override n = none)
    (henv : lookupKV vp.envLayer (envVarNameFor n) = none)
    (h : setFlagsUsingViperLoop names flags vp = some (fl', vp')) :
    lookupFlag fl' n
      = some { a with value := resolveFallback vp.configLayer n a.defValue,
                      changed := true } := by
  induction names generalizing flags vp with
  | nil => simp at hn
  | cons m rest ih =>
    obtain ⟨hm_nin, hrest_nd⟩ := List.nodup_cons.mp hnd
    rcases List.mem_cons.mp hn with he | he
    · subst he
      simp only [setFlagsUsingViperLoop, ha] at h
      rw [setFlagsUsingViperLoop_not_mem hm_nin h]
      have hname := lookupFlag_name ha
      have hova : lookupKV vp.override a.name = none := by rw [hname]; exact hov
      have henva : lookupKV vp.envLayer (envVarNameFor a.name) = none := by
        rw [hname]; exact henv
      have hx := lookupFlag_setFlagValue_self
        (getString (resolveStepViper vp a) a.name) ha
      rw [getString_resolveStep_unchanged hch hova henva] at hx ⊢
      rw [hname] at hx ⊢
      exact hx
    · have hm_ne : n ≠ m := fun e => hm_nin (e ▸ he)
      cases hl : lookupFlag flags m with
      | none => simp [setFlagsUsingViperLoop, hl] at h
      | some b =>
        simp only [setFlagsUsingViperLoop, hl] at h
        have hb := lookupFlag_name hl
        have hov2 : lookupKV (resolveStepViper vp b).override n = none := by
          rw [resolveStepViper_override_ne (fun e => hm_ne (e.symm.trans hb))]
          exact hov
        have henv2 : lookupKV (resolveStepViper vp b).envLayer (envVarNameFor n) = none := by
          rw [resolveStepViper_envLayer]
          exact henv
        have ha2 : lookupFlag (setFlagValue flags b.name
            (getString (resolveStepViper vp b) b.name)) n = some a := by
          rw [lookupFlag_setFlagValue_ne (fun e => hm_ne (e.trans hb))]
          exact ha
        have hres := ih hrest_nd he ha2 hov2 henv2 h
        rw [hres, resolveStepViper_configLayer]

/-! ## Helper lemmas about the filesystem model -/

theorem mkdirAll_ok {fs fs1 : FS} {p : Path} (h : mkdirAll fs p = .ok fs1) :
    fs1.files = fs.files ∧ (∀ q ∈ fs.dirs, q ∈ fs1.dirs) ∧
      (∀ q ∈ pathAncestors p, q ∈ fs1.dirs) ∧
      (∀ q ∈ pathAncestors p, q ∉ fs.files) := by
  unfold mkdirAll at h
  by_cases hc : (pathAncestors p).any (fun q => decide (q ∈ fs.files)) = true
  · rw [if_pos hc] at h
    exact absurd h (by simp)
  · rw [if_neg hc] at h
    have hnof : ∀ q ∈ pathAncestors p, q ∉ fs.files := by
      intro q hq hmem
      exact hc (List.any_eq_true.mpr ⟨q, hq, by simpa using hmem⟩)
    cases h
    refine ⟨rfl, ?_, ?_, hnof⟩
    · intro q hq
      exact List.mem_append_left _ hq
    · intro q hq
      by_cases hd : q ∈ fs.dirs
      · exact List.mem_append_left _ hd
      · exact List.mem_append_right _
          (List.mem_filter.mpr ⟨hq, by simpa using hd⟩)

theorem mkdirAll_idem {fs : FS} {p : Path}
    (hdirs : ∀ q ∈ pathAncestors p, q ∈ fs.dirs)
    (hfiles : ∀ q ∈ pathAncestors p, q ∉ fs.files) :
    mkdirAll fs p = .ok fs := by
  unfold mkdirAll
  rw [if_neg (by
    intro hc
    obtain ⟨q, hq, hmem⟩ := List.any_eq_true.mp hc
    exact hfiles q hq (by simpa using hmem))]
  have hfilter : (pathAncestors p).filter (fun q => decide (q ∉ fs.dirs)) = [] := by
    rw [List.filter_eq_nil_iff]
    intro q hq
    simpa using hdirs q hq
  rw [hfilter, List.append_nil]

theorem createDirs_ok {ps : List Path} {fs fs' : FS}
    (h : createDirs ps fs = .ok fs') :
    fs'.files = fs.files ∧ (∀ q ∈ fs.dirs, q ∈ fs'.dirs) ∧
      ∀ p ∈ ps, ∀ q ∈ pathAncestors p, q ∈ fs'.dirs ∧ q ∉ fs.files := by
  induction ps generalizing fs with
  | nil =>
    simp only [createDirs] at h
    cases h
    exact ⟨rfl, fun q hq => hq, by simp⟩
  | cons p rest ih =>
    simp only [createDirs] at h
    cases hm : mkdirAll fs p with
    | error e => rw [hm] at h; exact absurd h (by simp)
    | ok fs1 =>
      rw [hm] at h
      obtain ⟨hf1, hd1, hanc1, hnof1⟩ := mkdirAll_ok hm
      obtain ⟨hf2, hd2, hrest⟩ := ih h
      refine ⟨hf2.trans hf1, fun q hq => hd2 q (hd1 q hq), ?_⟩
      intro p' hp' q hq
      rcases List.mem_cons.mp hp' with he | he
      · subst he
        exact ⟨hd2 q (hanc1 q hq), hnof1 q hq⟩
      · obtain ⟨hin, hnin⟩ := hrest p' he q hq
        exact ⟨hin, fun hmem => hnin (hf1 ▸ hmem)⟩

theorem createDirs_idem {ps : List Path} {fs : FS}
    (h : ∀ p ∈ ps, ∀ q ∈ pathAncestors p, q ∈ fs.dirs ∧ q ∉ fs.files) :
    createDirs ps fs = .ok fs := by
  induction ps with
  | nil => rfl
  | cons p rest ih =>
    have hp := h p (List.mem_cons_self p rest)
    simp only [createDirs,
      mkdirAll_idem (fun q hq => (hp q hq).1) (fun q hq => (hp q hq).2)]
    exact ih fun p' hp' q hq => h p' (List.mem_cons_of_mem _ hp') q hq

/-! ## Helper lemmas about the environment name mangling -/

theorem toUpperGo_append (s t : String) :
    toUpperGo (s ++ t) = toUpperGo s ++ toUpperGo t := by
  apply String.ext
  simp [toUpperGo, String.data_append]

theorem dashToUnderscore_append (s t : String) :
    dashToUnderscore (s ++ t) = dashToUnderscore s ++ dashToUnderscore t := by
  apply String.ext
  simp [dashToUnderscore, String.data_append]

/-! ## Claim theorems -/

/-- C1: for every whitelisted flag name, if the flag was explicitly
supplied on the command line (`Changed` true before resolution), then
after `setFlagsUsingViper` the flag's resolved current value equals the
supplied value, regardless of any config-file or environment-variable
value for that name (the viper state is arbitrary). -/
theorem c1_cmdline_precedence {flags : List Flag} {vp : ViperState}
    {name : String} {a : Flag} {fl' : List Flag} {vp' : ViperState}
    (hn : name ∈ viperWhiteList)
    (ha : lookupFlag flags name = some a) (hch : a.changed = true)
    (h : setFlagsUsingViper flags vp = some (fl', vp')) :
    ∃ a', lookupFlag fl' name = some a' ∧ a'.value = a.value :=
  ⟨_, setFlagsUsingViperLoop_changed (by decide) hn ha hch h, rfl⟩

theorem c1_cmdline_precedence_witness :
    ∃ a', lookupFlag
      [⟨"v", "0", "5", true⟩,
       ⟨"alsologtostderr", "false", "false", true⟩,
       ⟨"log_dir", "", "", true⟩] "v" = some a' ∧ a'.value = "5" :=
  @c1_cmdline_precedence
    [⟨"v", "0", "5", true⟩,
     ⟨"alsologtostderr", "false", "false", false⟩,
     ⟨"log_dir", "", "", false⟩]
    ⟨[], [("MINIKUBE_V", "9")], [("v", "7")], []⟩
    "v" ⟨"v", "0", "5", true⟩
    [⟨"v", "0", "5", true⟩,
     ⟨"alsologtostderr", "false", "false", true⟩,
     ⟨"log_dir", "", "", true⟩]
    ⟨[("v", "5")], [("MINIKUBE_V", "9")], [("v", "7")],
     [("log_dir", ""), ("alsologtostderr", "false"), ("v", "0")]⟩
    (by decide) (by decide) (by decide) (by decide)

/-- C2: every whitelist name has a registered flag in the actual flag
registry (the glog goflag set merged into `pflag.CommandLine`); and for
any registry in which some whitelist entry has no matching flag,
`setFlagsUsingViper` crashes (nil-pointer panic at `a.Name`, modelled
by `none`) rather than silently skipping the entry. -/
theorem c2_whitelist_integrity :
    (∀ n ∈ viperWhiteList, (lookupFlag glogFlags n).isSome = true) ∧
    ∀ (flags : List Flag) (vp : ViperState) (n : String),
      n ∈ viperWhiteList → lookupFlag flags n = none →
      setFlagsUsingViper flags vp = none := by
  refine ⟨by decide, ?_⟩
  intro flags vp n hn hmiss
  exact setFlagsUsingViperLoop_missing hn hmiss

theorem c2_whitelist_integrity_witness :
    setFlagsUsingViper [] (viperStart []) = none :=
  c2_whitelist_integrity.2 [] (viperStart []) "v" (by decide) rfl

/-- C4: for a whitelisted flag not supplied on the command line (and no
pre-existing override), when no environment variable for it is present:
if the config file has a value, the resolved value written back into
the flag equals that config value; if the config file has none either,
the resolved value equals the flag's compiled-in default (`DefValue`). -/
theorem c4_fallback_and_default {flags : List Flag} {vp : ViperState}
    {name : String} {a : Flag} {fl' : List Flag} {vp' : ViperState}
    (hn : name ∈ viperWhiteList)
    (ha : lookupFlag flags name = some a) (hch : a.changed = false)
    (hov : lookupKV vp.override name = none)
    (henv : lookupKV vp.envLayer (envVarNameFor name) = none)
    (h : setFlagsUsingViper flags vp = some (fl', vp')) :
    (∀ cv, lookupKV vp.configLayer name = some cv →
      ∃ a', lookupFlag fl' name = some a' ∧ a'.value = cv) ∧
    (lookupKV vp.configLayer name = none →
      ∃ a', lookupFlag fl' name = some a' ∧ a'.value = a.defValue) := by
  have hres := setFlagsUsingViperLoop_unchanged (by decide) hn ha hch hov henv h
  constructor
  · intro cv hcv
    refine ⟨_, hres, ?_⟩
    simp [resolveFallback, hcv]
  · intro hcv
    refine ⟨_, hres, ?_⟩
    simp [resolveFallback, hcv]

theorem c4_fallback_and_default_witness :
    ∃ a', lookupFlag
      [⟨"v", "0", "7", true⟩,
       ⟨"alsologtostderr", "false", "false", true⟩,
       ⟨"log_dir", "", "", true⟩] "v" = some a' ∧ a'.value = "7" :=
  (@c4_fallback_and_default
    glogFlags
    ⟨[], [], [("v", "7")], []⟩
    "v" ⟨"v", "0", "0", false⟩
    [⟨"v", "0", "7", true⟩,
     ⟨"alsologtostderr", "false", "false", true⟩,
     ⟨"log_dir", "", "", true⟩]
    ⟨[], [], [("v", "7")],
     [("log_dir", ""), ("alsologtostderr", "false"), ("v", "0")]⟩
    (by decide) (by decide) (by decide) (by decide) (by decide)
    (by decide)).1 "7" (by decide)

/-- C5: the environment-variable name viper consults for any
configuration key is the fixed tool prefix, then `_`, then the key
uppercased with every `-` replaced by `_`. -/
theorem c5_env_name_mangling (key : String) :
    envVarNameFor key
      = minikubeEnvName ++ "_" ++ dashToUnderscore (toUpperGo key) := by
  unfold envVarNameFor
  rw [toUpperGo_append, dashToUnderscore_append]
  have h1 : dashToUnderscore (toUpperGo (minikubeEnvName ++ "_"))
      = minikubeEnvName ++ "_" := by decide
  rw [h1]

/-- C3: in the bootstrap pre-run hook (when it does not exit early),
the update-notification check performs if and only if the resolved
"want update notification" configuration value is true, and the
kubectl-download-message check performs if and only if the resolved
"want kubectl download message" configuration value is true (the two
compiled-in gating booleans are true). -/
theorem c3_checks_iff_config {fs fs1 : FS} (slv : Bool) (verb : Nat)
    (vp : ViperState) (hok : createDirs dirsList fs = .ok fs1) :
    ((persistentPreRun fs slv verb vp).updateCheckPerformed = true ↔
      getBool vp WantUpdateNotification = true) ∧
    ((persistentPreRun fs slv verb vp).kubectlMsgPerformed = true ↔
      getBool vp WantKubectlDownloadMsg = true) := by
  unfold persistentPreRun
  rw [hok]
  simp [enableUpdateNotification, enableKubectlDownloadMsg,
    updateCheckEnabled, kubectlMsgEnabled]

theorem c3_checks_iff_config_witness :
    ((persistentPreRun ⟨[], []⟩ false 0 (viperStart [])).updateCheckPerformed = true ↔
      getBool (viperStart []) WantUpdateNotification = true) ∧
    ((persistentPreRun ⟨[], []⟩ false 0 (viperStart [])).kubectlMsgPerformed = true ↔
      getBool (viperStart []) WantKubectlDownloadMsg = true) :=
  @c3_checks_iff_config ⟨[], []⟩
    ⟨[minipath, MakeMiniPath ["certs"], MakeMiniPath ["machines"],
      MakeMiniPath ["cache"], MakeMiniPath ["cache", "iso"],
      MakeMiniPath ["cache", "localkube"], MakeMiniPath ["config"],
      MakeMiniPath ["addons"], MakeMiniPath ["logs"]], []⟩
    false 0 (viperStart []) (by rfl)

/-- C7: if creating any path in the fixed directory list fails, the
pre-run hook terminates the process (`glog.Exitf`) with a diagnostic
message, and none of the later bootstrap steps (deprecation notice,
libmachine log rerouting, notification checks) executes. -/
theorem c7_dir_failure_fatal {fs : FS} {e : String} (slv : Bool) (verb : Nat)
    (vp : ViperState) (herr : createDirs dirsList fs = .error e) :
    (persistentPreRun fs slv verb vp).exited = true ∧
    (persistentPreRun fs slv verb vp).exitMsg
      = some ("Error creating minikube directory: " ++ e) ∧
    (persistentPreRun fs slv verb vp).deprecationPrinted = false ∧
    (persistentPreRun fs slv verb vp).libmachineOutDiscarded = false ∧
    (persistentPreRun fs slv verb vp).libmachineDebug = false ∧
    (persistentPreRun fs slv verb vp).updateCheckInvoked = false ∧
    (persistentPreRun fs slv verb vp).updateCheckPerformed = false ∧
    (persistentPreRun fs slv verb vp).kubectlMsgInvoked = false ∧
    (persistentPreRun fs slv verb vp).kubectlMsgPerformed = false := by
  unfold persistentPreRun
  rw [herr]
  exact ⟨rfl, rfl, rfl, rfl, rfl, rfl, rfl, rfl, rfl⟩

theorem c7_dir_failure_fatal_witness :
    (persistentPreRun ⟨[], [[".minikube"]]⟩ true 9 (viperStart [])).exited = true ∧
    (persistentPreRun ⟨[], [[".minikube"]]⟩ true 9 (viperStart [])).exitMsg
      = some ("Error creating minikube directory: " ++ "mkdir: not a directory") ∧
    (persistentPreRun ⟨[], [[".minikube"]]⟩ true 9 (viperStart [])).deprecationPrinted = false ∧
    (persistentPreRun ⟨[], [[".minikube"]]⟩ true 9 (viperStart [])).libmachineOutDiscarded = false ∧
    (persistentPreRun ⟨[], [[".minikube"]]⟩ true 9 (viperStart [])).libmachineDebug = false ∧
    (persistentPreRun ⟨[], [[".minikube"]]⟩ true 9 (viperStart [])).updateCheckInvoked = false ∧
    (persistentPreRun ⟨[], [[".minikube"]]⟩ true 9 (viperStart [])).updateCheckPerformed = false ∧
    (persistentPreRun ⟨[], [[".minikube"]]⟩ true 9 (viperStart [])).kubectlMsgInvoked = false ∧
    (persistentPreRun ⟨[], [[".minikube"]]⟩ true 9 (viperStart [])).kubectlMsgPerformed = false :=
  @c7_dir_failure_fatal ⟨[], [[".minikube"]]⟩
    "mkdir: not a directory" true 9 (viperStart []) (by rfl)

/-- C8: after a non-exiting bootstrap, the libmachine output/error
streams are discarded exactly when the resolved verbosity is below 3
(so verbosity ≥ 3 leaves them enabled), and libmachine debug output is
enabled exactly when verbosity is at least 7. -/
theorem c8_libmachine_gating {fs fs1 : FS} (slv : Bool) (verb : Nat)
    (vp : ViperState) (hok : createDirs dirsList fs = .ok fs1) :
    ((persistentPreRun fs slv verb vp).libmachineOutDiscarded = true ↔ verb < 3) ∧
    ((persistentPreRun fs slv verb vp).libmachineDebug = true ↔ 7 ≤ verb) := by
  unfold persistentPreRun
  rw [hok]
  constructor
  · simp [Nat.lt_iff_add_one_le, Nat.not_le]
  · simp

theorem c8_libmachine_gating_witness :
    ((persistentPreRun ⟨[], []⟩ false 3 (viperStart [])).libmachineOutDiscarded = true ↔ 3 < 3) ∧
    ((persistentPreRun ⟨[], []⟩ false 3 (viperStart [])).libmachineDebug = true ↔ 7 ≤ 3) :=
  @c8_libmachine_gating ⟨[], []⟩
    ⟨[minipath, MakeMiniPath ["certs"], MakeMiniPath ["machines"],
      MakeMiniPath ["cache"], MakeMiniPath ["cache", "iso"],
      MakeMiniPath ["cache", "localkube"], MakeMiniPath ["config"],
      MakeMiniPath ["addons"], MakeMiniPath ["logs"]], []⟩
    false 3 (viperStart []) (by rfl)

/-- C9: directory provisioning is idempotent: a successful run of the
creation loop over the fixed directory list yields a state from which a
second run succeeds and changes nothing, and the first run has created
every ancestor of every listed path. -/
theorem c9_idempotent_provisioning {fs fs' : FS}
    (h : createDirs dirsList fs = .ok fs') :
    createDirs dirsList fs' = .ok fs' ∧
    ∀ p ∈ dirsList, ∀ q ∈ pathAncestors p, q ∈ fs'.dirs := by
  obtain ⟨hf, _, hall⟩ := createDirs_ok h
  constructor
  · apply createDirs_idem
    intro p hp q hq
    obtain ⟨hin, hnin⟩ := hall p hp q hq
    exact ⟨hin, fun hmem => hnin (hf ▸ hmem)⟩
  · intro p hp q hq
    exact (hall p hp q hq).1

theorem c9_idempotent_provisioning_witness :
    createDirs dirsList
      ⟨[minipath, MakeMiniPath ["certs"], MakeMiniPath ["machines"],
        MakeMiniPath ["cache"], MakeMiniPath ["cache", "iso"],
        MakeMiniPath ["cache", "localkube"], MakeMiniPath ["config"],
        MakeMiniPath ["addons"], MakeMiniPath ["logs"]], []⟩
      = .ok ⟨[minipath, MakeMiniPath ["certs"], MakeMiniPath ["machines"],
        MakeMiniPath ["cache"], MakeMiniPath ["cache", "iso"],
        MakeMiniPath ["cache", "localkube"], MakeMiniPath ["config"],
        MakeMiniPath ["addons"], MakeMiniPath ["logs"]], []⟩ ∧
    ∀ p ∈ dirsList, ∀ q ∈ pathAncestors p,
      q ∈ (FS.mk [minipath, MakeMiniPath ["certs"], MakeMiniPath ["machines"],
        MakeMiniPath ["cache"], MakeMiniPath ["cache", "iso"],
        MakeMiniPath ["cache", "localkube"], MakeMiniPath ["config"],
        MakeMiniPath ["addons"], MakeMiniPath ["logs"]] []).dirs :=
  @c9_idempotent_provisioning ⟨[], []⟩
    ⟨[minipath, MakeMiniPath ["certs"], MakeMiniPath ["machines"],
      MakeMiniPath ["cache"], MakeMiniPath ["cache", "iso"],
      MakeMiniPath ["cache", "localkube"], MakeMiniPath ["config"],
      MakeMiniPath ["addons"], MakeMiniPath ["logs"]], []⟩
    (by rfl)

/-- C6: when reading/parsing the config file fails, `initConfig` emits
a warning and does not terminate: resolution still completes (whenever
the whitelist flags are registered), the config-file layer stays as it
was (empty at startup), and — starting from the pristine startup state
with no environment overrides — every configuration value resolves to
its compiled default (the five seeded defaults and the three flag
defaults). -/
theorem c6_bad_config_degrades :
    (∀ (msg : String) (flags : List Flag) (vp : ViperState),
      (initConfig (.error msg) flags vp).1 = true) ∧
    (∀ (msg : String) (flags : List Flag) (vp : ViperState),
      (∀ n ∈ viperWhiteList, (lookupFlag flags n).isSome = true) →
      ∃ fl' vp', (initConfig (.error msg) flags vp).2 = some (fl', vp') ∧
        vp'.configLayer = vp.configLayer) ∧
    (∀ msg : String, ∃ fl' vp',
      (initConfig (.error msg) glogFlags (viperStart [])).2 = some (fl', vp') ∧
      getString vp' WantUpdateNotification = "true" ∧
      getString vp' ReminderWaitPeriodInHours = "24" ∧
      getString vp' WantReportError = "false" ∧
      getString vp' WantReportErrorPrompt = "true" ∧
      getString vp' WantKubectlDownloadMsg = "true" ∧
      (∃ fv, lookupFlag fl' "v" = some fv ∧ fv.value = "0") ∧
      (∃ fa, lookupFlag fl' "alsologtostderr" = some fa ∧ fa.value = "false") ∧
      (∃ fd, lookupFlag fl' "log_dir" = some fd ∧ fd.value = "")) := by
  refine ⟨fun msg flags vp => rfl, ?_, ?_⟩
  · intro msg flags vp hfl
    obtain ⟨fl', vp', heq, hc, _⟩ :=
      @setFlagsUsingViperLoop_total viperWhiteList flags
        (viperSetDefault (viperSetDefault (viperSetDefault (viperSetDefault
          (viperSetDefault vp WantUpdateNotification "true")
          ReminderWaitPeriodInHours "24") WantReportError "false")
          WantReportErrorPrompt "true") WantKubectlDownloadMsg "true") hfl
    exact ⟨fl', vp', heq, hc⟩
  · intro msg
    refine ⟨[⟨"v", "0", "0", true⟩,
             ⟨"alsologtostderr", "false", "false", true⟩,
             ⟨"log_dir", "", "", true⟩],
            ⟨[], [], [],
             [("log_dir", ""), ("alsologtostderr", "false"), ("v", "0"),
              ("WantKubectlDownloadMsg", "true"),
              ("WantReportErrorPrompt", "true"),
              ("WantReportError", "false"),
              ("ReminderWaitPeriodInHours", "24"),
              ("WantUpdateNotification", "true")]⟩,
            by rfl, by decide, by decide, by decide, by decide, by decide,
            ⟨⟨"v", "0", "0", true⟩, by decide, by decide⟩,
            ⟨⟨"alsologtostderr", "false", "false", true⟩, by decide, by decide⟩,
            ⟨⟨"log_dir", "", "", true⟩, by decide, by decide⟩⟩

theorem c6_bad_config_degrades_witness :
    ∃ fl' vp',
      (initConfig (.error "invalid JSON") glogFlags (viperStart [])).2
        = some (fl', vp') ∧
      vp'.configLayer = (viperStart []).configLayer :=
  c6_bad_config_degrades.2.1 "invalid JSON" glogFlags (viperStart []) (by decide)

/-- C10: when `log_dir` is not supplied on the command line, `init`
sets the flag's current value to the minikube logs path but leaves its
`Changed` marker false; consequently, when no override, environment
variable or config-file entry for `log_dir` exists, `setFlagsUsingViper`
overwrites that value with the flag's original registration default, so
the resolved `log_dir` value is the logging library's default and not
the minikube logs path. -/
theorem c10_logDir_overwritten {flags flags1 : List Flag} {l : Flag}
    {vp : ViperState} {fl2 : List Flag} {vp2 : ViperState}
    (hl : lookupFlag flags "log_dir" = some l) (hch : l.changed = false)
    (hinit : rootInit flags = some flags1)
    (hov : lookupKV vp.override "log_dir" = none)
    (henv : lookupKV vp.envLayer (envVarNameFor "log_dir") = none)
    (hcfg : lookupKV vp.configLayer "log_dir" = none)
    (hres : setFlagsUsingViper flags1 vp = some (fl2, vp2)) :
    (∃ lmid, lookupFlag flags1 "log_dir" = some lmid ∧
      lmid.value = minikubeLogsPathStr ∧ lmid.changed = false) ∧
    (∃ l2, lookupFlag fl2 "log_dir" = some l2 ∧ l2.value = l.defValue ∧
      (l.defValue ≠ minikubeLogsPathStr → l2.value ≠ minikubeLogsPathStr)) := by
  unfold rootInit at hinit
  rw [hl] at hinit
  simp [hch] at hinit
  cases hinit
  have hmid := lookupFlag_setValueOnly_self minikubeLogsPathStr hl
  refine ⟨⟨{ l with value := minikubeLogsPathStr }, hmid, rfl, hch⟩, ?_⟩
  have hres2 := setFlagsUsingViperLoop_unchanged (by decide)
    (show "log_dir" ∈ viperWhiteList by decide) hmid hch hov henv hres
  have hval : resolveFallback vp.configLayer "log_dir"
      (Flag.defValue { l with value := minikubeLogsPathStr }) = l.defValue := by
    unfold resolveFallback
    rw [hcfg]
  refine ⟨_, hres2, hval, fun hne heq2 => hne (hval.symm.trans heq2)⟩

theorem c10_logDir_overwritten_witness :
    (∃ lmid, lookupFlag
        [⟨"v", "0", "0", false⟩,
         ⟨"alsologtostderr", "false", "false", false⟩,
         ⟨"log_dir", "", ".minikube/logs", false⟩] "log_dir" = some lmid ∧
      lmid.value = minikubeLogsPathStr ∧ lmid.changed = false) ∧
    (∃ l2, lookupFlag
        [⟨"v", "0", "0", true⟩,
         ⟨"alsologtostderr", "false", "false", true⟩,
         ⟨"log_dir", "", "", true⟩] "log_dir" = some l2 ∧ l2.value = "" ∧
      ("" ≠ minikubeLogsPathStr → l2.value ≠ minikubeLogsPathStr)) :=
  @c10_logDir_overwritten glogFlags
    [⟨"v", "0", "0", false⟩,
     ⟨"alsologtostderr", "false", "false", false⟩,
     ⟨"log_dir", "", ".minikube/logs", false⟩]
    ⟨"log_dir", "", "", false⟩
    (viperStart [])
    [⟨"v", "0", "0", true⟩,
     ⟨"alsologtostderr", "false", "false", true⟩,
     ⟨"log_dir", "", "", true⟩]
    ⟨[], [], [],
     [("log_dir", ""), ("alsologtostderr", "false"), ("v", "0")]⟩
    (by decide) rfl (by rfl) rfl rfl rfl (by decide)

end Minikube
